import Mathlib

/-!
Verification development for the SWOT hydrology toolbox LakeTile PGE driver
(processing/PGE/lake_tile/pge_lake_tile.py) and the large-scale-simulator
pixel-cloud writer (sisimp/proc_real_pixc.py).

Shallow embedding conventions:
  - Python strings are Lean String; the split-on-dot operation of
    str.split is re-implemented structurally so the kernel can evaluate it.
  - Python None / values are Option.
  - Fallible Python code (exit(...) calls, numpy errors, raised exceptions)
    is embedded with Except.
  - numpy float arrays carrying opaque data (time tags) are embedded as
    List Int: the embedded code only copies and indexes them.
  - The filesystem test os.path.isdir is an oracle parameter.
-/

/-! ## Character-level split, embedding Python str.split for a one-character separator -/

/-- Splits a character list at every dot, exactly like Python str.split of a
one-character separator: the result is always nonempty, and empty pieces are kept. -/
def splitDot : List Char → List (List Char)
  | [] => [[]]
  | c :: rest =>
    let r := splitDot rest
    if c = '.' then [] :: r else (c :: r.headD []) :: r.tail

/-- Embedding of the Python expression f.split of the dot separator, at String level. -/
def pySplitDot (f : String) : List String :=
  (splitDot f.toList).map String.mk

/-- Formalisation of the phrase a path ending in a given suffix, used by the spec
of claim C5; Boolean suffix test on the underlying character lists. -/
def endsWithSpec (s suf : String) : Bool :=
  suf.toList.isSuffixOf s.toList

/-! ## Prior lake database dispatch (PGELakeTile._read_lake_db, pge_lake_tile.py lines 463-498) -/

/-- The kind of prior-lake-database object built by PGELakeTile._read_lake_db.
The four constructors embed lake_db.LakeDb (empty), lake_db.LakeDbShp,
lake_db.LakeDbSqlite and lake_db.LakeDbDirectory; those classes live outside
src and are treated as opaque tags here. -/
inductive LakeDbResult where
  | emptyDb
  | shpDb (path : String)
  | sqliteDb (path : String)
  | dirDb (path : String)
deriving DecidableEq, Repr

/-- Result of the database dispatch: which object was built, and whether a
warning was logged on the way (logger.warning or the warning-level debug of the
unknown-format branch). The function is total: no branch raises. -/
structure LakeDbOutcome where
  db : LakeDbResult
  warned : Bool
deriving DecidableEq, Repr

/-- Embedding of PGELakeTile._read_lake_db (pge_lake_tile.py lines 469-498).
cfg is the LAKE_DB configuration value (None embedded as none), isdir is the
os.path.isdir oracle.  The source computes type_db as the last piece of
the path split at dots, then dispatches shp / sqlite / directory / unknown. -/
def read_lake_db (cfg : Option String) (isdir : String → Bool) : LakeDbOutcome :=
  match cfg with
  | none => ⟨.emptyDb, true⟩
  | some f =>
    if f = "" then ⟨.emptyDb, true⟩
    else
      let type_db := (pySplitDot f).getLastD ""
      if type_db = "shp" then ⟨.shpDb f, false⟩
      else if type_db = "sqlite" then ⟨.sqliteDb f, false⟩
      else if isdir f then ⟨.dirDb f, false⟩
      else ⟨.emptyDb, true⟩

/-- Formalisation of claim C5 as the spec words it: dispatch on a path ending
in .shp, a path ending in .sqlite, or an existing directory, everything else
downgraded to the empty database with a warning.  Kept separate from
read_lake_db (which embeds the source) so the two can be compared. -/
def read_lake_db_specModel (cfg : Option String) (isdir : String → Bool) : LakeDbOutcome :=
  match cfg with
  | none => ⟨.emptyDb, true⟩
  | some f =>
    if f = "" then ⟨.emptyDb, true⟩
    else if endsWithSpec f ".shp" then ⟨.shpDb f, false⟩
    else if endsWithSpec f ".sqlite" then ⟨.sqliteDb f, false⟩
    else if isdir f then ⟨.dirDb f, false⟩
    else ⟨.emptyDb, true⟩

/-- Modelled from the spec: the association behaviour of the empty prior-lake
index (class LakeDb of cnes.common.lib_lake.lake_db, which is not under src).
Spec section 4.3: if no prior database is configured, the index is empty and
all features are unassigned by definition; so the empty index returns no
candidate prior lake for any observed feature. -/
def emptyLakeDbLink (_feature : Nat) : List Nat := []

/-! ## Configuration parameter checks (PGELakeTile._check_config_parameters, lines 275-438)

The validator self.cfg.test_var_config_file lives outside src
(cnes.common.service_config_file); what the source under src fixes is the exact
list of checks it requests for the CONFIG_PARAMS section: option name, expected
Python type, default value and, when given, the list of accepted values.  That
list is embedded literally below, in source order (lines 365-426). -/

/-- The Python type requested for a configuration option. -/
inductive PyType where
  | pystr
  | pyint
  | pyfloat
  | pybool
deriving DecidableEq, Repr

/-- A Python scalar appearing as a default or accepted value in the checks;
numbers are embedded as exact rationals. -/
inductive PyVal where
  | vstr (s : String)
  | vnum (q : ℚ)
  | vbool (b : Bool)
deriving DecidableEq, Repr

/-- One call to test_var_config_file: section, option, requested type,
optional default (the val_default argument) and optional accepted values
(the valeurs argument). -/
structure ConfigCheck where
  sect : String
  option : String
  ty : PyType
  default : Option PyVal
  accepted : Option (List PyVal)
deriving DecidableEq, Repr

/-- The CONFIG_PARAMS checks requested by PGELakeTile._check_config_parameters,
pge_lake_tile.py lines 365-426, in source order. -/
def configParamChecks : List ConfigCheck :=
  [ ⟨"CONFIG_PARAMS", "FLAG_WATER", .pystr, some (.vstr "3;4"), none⟩,
    ⟨"CONFIG_PARAMS", "FLAG_DARK", .pystr, some (.vstr "23;24"), none⟩,
    ⟨"CONFIG_PARAMS", "MIN_SIZE", .pyfloat, some (.vnum 0.01), none⟩,
    ⟨"CONFIG_PARAMS", "MIN_OVERLAP", .pyfloat, some (.vnum 1.0), none⟩,
    ⟨"CONFIG_PARAMS", "AREA_METHOD", .pystr, some (.vstr "pixc"), none⟩,
    ⟨"CONFIG_PARAMS", "SEGMENTATION_METHOD", .pyint, some (.vnum 7), none⟩,
    ⟨"CONFIG_PARAMS", "IMP_GEOLOC", .pybool, some (.vbool true), none⟩,
    ⟨"CONFIG_PARAMS", "HULL_METHOD", .pyfloat, some (.vnum 2),
      some [.vnum 0, .vnum 1.0, .vnum 1.1, .vnum 1.2, .vnum 2]⟩,
    ⟨"CONFIG_PARAMS", "NB_PIX_MAX_DELAUNEY", .pyint, some (.vnum 100000), none⟩,
    ⟨"CONFIG_PARAMS", "NB_PIX_MAX_CONTOUR", .pyint, some (.vnum 8000), none⟩,
    ⟨"CONFIG_PARAMS", "BIGLAKE_MODEL", .pystr, some (.vstr "polynomial"),
      some [.vstr "polynomial", .vstr "no"]⟩,
    ⟨"CONFIG_PARAMS", "BIGLAKE_MIN_SIZE", .pyfloat, some (.vnum 50.0), none⟩,
    ⟨"CONFIG_PARAMS", "BIGLAKE_GRID_SPACING", .pyfloat, some (.vnum 4000), none⟩,
    ⟨"CONFIG_PARAMS", "BIGLAKE_GRID_RES", .pyfloat, some (.vnum 8000), none⟩,
    ⟨"CONFIG_PARAMS", "STOCC_INPUT", .pystr, some (.vstr "pld"), none⟩,
    ⟨"CONFIG_PARAMS", "NB_DIGITS", .pystr, some (.vnum 6), none⟩ ]

/-- Lookup of the check requested for a given option name. -/
def findCheck (opt : String) : Option ConfigCheck :=
  configParamChecks.find? (fun c => c.option = opt)

/-! ## Run orchestration (PGELakeTile.__init__ lines 63-138, start lines 564-634,
and the main block lines 671-692) -/

/-- A configuration error raised by the checks: an option with an unknown value
or with an ill-typed value.  Raised (and re-raised, lines 429-436) by
_check_config_parameters. -/
inductive ConfigError where
  | unknownValue (sect opt : String)
  | illTyped (sect opt : String)
deriving DecidableEq, Repr

/-- The externally observable steps of one PGE run, in the order the source
performs them: constructor steps 1-8 of __init__, then the steps of start. -/
inductive RunStep where
  | loadCmdFile
  | loadParamFile
  | putCmdValues
  | initLogging
  | checkConfig
  | buildMetadata
  | readInputData
  | readLakeDb
  | prepareOutput
  | sasPreprocessing
  | sasProcessing
  | sasPostprocessing
  | writeOutput
deriving DecidableEq, Repr

/-- True on the steps that read or process feature data: _read_input_data, the
lake-database load, output preparation, the three SAS processing stages and the
output writing. -/
def featureProcessingStep : RunStep → Bool
  | .readInputData => true
  | .readLakeDb => true
  | .prepareOutput => true
  | .sasPreprocessing => true
  | .sasProcessing => true
  | .sasPostprocessing => true
  | .writeOutput => true
  | _ => false

/-- Embedding of PGELakeTile.__init__ (lines 63-138).  The steps before the
configuration check are command-file loading (steps 1-3), object init and
logging setup (steps 4-6); step 7 runs _check_config_parameters, whose outcome
is the check parameter (its internals are external validator code); step 8
builds the metadata dictionary.  A check failure propagates out of the
constructor (lines 429-436 re-raise). -/
def pgeInit (check : Except ConfigError Unit) : List RunStep × Option ConfigError :=
  let pre := [RunStep.loadCmdFile, RunStep.loadParamFile, RunStep.putCmdValues,
              RunStep.initLogging]
  match check with
  | .error e => (pre ++ [RunStep.checkConfig], some e)
  | .ok _ => (pre ++ [RunStep.checkConfig, RunStep.buildMetadata], none)

/-- The steps run by PGELakeTile.start (lines 564-634), in source order. -/
def pgeStartSteps : List RunStep :=
  [RunStep.readInputData, RunStep.readLakeDb, RunStep.prepareOutput,
   RunStep.sasPreprocessing, RunStep.sasProcessing, RunStep.sasPostprocessing,
   RunStep.writeOutput]

/-- Embedding of the main block (lines 671-692): the PGE is constructed, and
start is called only when the constructor returned normally. -/
def pgeMain (check : Except ConfigError Unit) : List RunStep × Option ConfigError :=
  match pgeInit check with
  | (tr, some e) => (tr, some e)
  | (tr, none) => (tr ++ pgeStartSteps, none)

/-! ## Output writing (PGELakeTile._write_output_data, lines 520-560) -/

/-- The file-emission events of _write_output_data. -/
inductive WriteEvent where
  | obsShp
  | priorShp
  | unknownShp
  | freeMemory
  | pixcvecNc
  | pixcvecShp
  | edgeNc
  | edgeShp
deriving DecidableEq, Repr

/-- Embedding of PGELakeTile._write_output_data (lines 520-560) as the ordered
trace of emissions: the three LakeTile feature shapefiles (obs-oriented,
PLD-oriented, unassigned), the memory-layer release, the LakeTile_PIXCVec
NetCDF file (with its optional debug shapefile copy when Produce shp is set and
there are water pixels), then the LakeTile_Edge NetCDF file (with its optional
debug shapefile copy when Produce shp is set and there are edge pixels). -/
def write_output_data (flag_prod_shp : Bool) (nb_water_pix nb_edge_pix : Nat) :
    List WriteEvent :=
  [WriteEvent.obsShp, WriteEvent.priorShp, WriteEvent.unknownShp, WriteEvent.freeMemory,
   WriteEvent.pixcvecNc]
  ++ (if flag_prod_shp then (if nb_water_pix = 0 then [] else [WriteEvent.pixcvecShp]) else [])
  ++ [WriteEvent.edgeNc]
  ++ (if flag_prod_shp then (if nb_edge_pix = 0 then [] else [WriteEvent.edgeShp]) else [])

/-- Selects the write events claim C4 talks about: the three feature shapefile
collections, the PIXCVec side-table file and the tile-edge pixel file. -/
def claimC4Event : WriteEvent → Bool
  | .obsShp => true
  | .priorShp => true
  | .unknownShp => true
  | .pixcvecNc => true
  | .edgeNc => true
  | _ => false

/-- Selects the feature shapefile collection events. -/
def isFeatureCollectionEvent : WriteEvent → Bool
  | .obsShp => true
  | .priorShp => true
  | .unknownShp => true
  | _ => false

/-! ## Pixel cloud product constructor (l2_hr_pixc.__init__, proc_real_pixc.py lines 57-176)

Only the fields with actual logic are embedded: azimuth indices,
the nadir time tags, the duplicated sensor_s vector and the derived
illumination_time vector.  The remaining constructor parameters (range index,
classification, geophysical float arrays, tile metadata) are copied verbatim by
the source with no computation; range_index and classification are kept as
representative copies, the opaque float arrays are elided. -/

/-- Failure modes of the embedded constructor and writers. -/
inductive PixcError where
  /-- numpy raises ValueError on np.max of a zero-size array. -/
  | emptyMax
  /-- The exit call of line 141: azimuth index max value over nb_nadir_pix,
  carrying the offending maximal index and the nadir point count. -/
  | azimuthOutOfBounds (maxIdx nbNadir : Nat)
  /-- Out-of-range array read. -/
  | indexError
deriving DecidableEq, Repr

/-- Embedding of np.max on an index array: ValueError on a zero-size array,
otherwise the maximum element. -/
def npMax : List Nat → Except PixcError Nat
  | [] => .error .emptyMax
  | a :: l => .ok (l.foldl max a)

/-- Checked array read, embedding a numpy array access by index. -/
def pyGet (l : List Int) (i : Nat) : Except PixcError Int :=
  match l.get? i with
  | some x => .ok x
  | none => .error .indexError

/-- Embedding of the fill loop of lines 144-146: for each pixel i the value
nadir_time at position sensor_s i is stored; an out-of-range read propagates. -/
def buildIlluminationTime (nadir_time : List Int) : List Nat → Except PixcError (List Int)
  | [] => .ok []
  | a :: rest =>
    match pyGet nadir_time a, buildIlluminationTime nadir_time rest with
    | .ok t, .ok ts => .ok (t :: ts)
    | .error e, _ => .error e
    | .ok _, .error e => .error e

/-- Constructor inputs of l2_hr_pixc relevant to the embedded logic. -/
structure PixcInput where
  azimuth_index : List Nat
  range_index : List Nat
  classification : List Int
  nadir_time : List Int
deriving Repr

/-- Constructor outputs: the object state after __init__ completes. -/
structure PixcState where
  azimuth_index : List Nat
  range_index : List Nat
  classification : List Int
  nb_water_pix : Nat
  sensor_s : List Nat
  nadir_time : List Int
  illumination_time : List Int
  nb_nadir_pix : Nat
deriving Repr

/-- Embedding of l2_hr_pixc.__init__ (proc_real_pixc.py lines 124-176): copy the
pixel arrays, set nb_water_pix to the azimuth array size, duplicate the azimuth
indices into sensor_s, take np.max of the azimuth indices (numpy error on an
empty array), abort when that maximum reaches the nadir point count (line 140),
then fill illumination_time from the nadir time tags. -/
def l2_hr_pixc_init (inp : PixcInput) : Except PixcError PixcState :=
  match npMax inp.azimuth_index with
  | .error e => .error e
  | .ok m =>
    if inp.nadir_time.length ≤ m then
      .error (.azimuthOutOfBounds m inp.nadir_time.length)
    else
      match buildIlluminationTime inp.nadir_time inp.azimuth_index with
      | .error e => .error e
      | .ok illum =>
        .ok { azimuth_index := inp.azimuth_index
              range_index := inp.range_index
              classification := inp.classification
              nb_water_pix := inp.azimuth_index.length
              sensor_s := inp.azimuth_index
              nadir_time := inp.nadir_time
              illumination_time := illum
              nb_nadir_pix := inp.nadir_time.length }

/-! ## Time scale conversions (l2_hr_pixc.computeTime_UTC and computeTime_TAI,
proc_real_pixc.py lines 739-785)

The source parses mission_start_time (a yyyy-mm-dd string) into a date and
subtracts a fixed reference datetime, returning total seconds plus the input.
The date is embedded as its year, month, day components; the datetime
difference in days is the difference of proleptic Gregorian day numbers. -/

/-- Day number of a proleptic Gregorian calendar date, embedding the day
arithmetic of Python datetime subtraction (an affine shift of datetime.toordinal,
which cancels in every difference of two dates). -/
def daysFromCivil (y m d : Int) : Int :=
  let y' := if m ≤ 2 then y - 1 else y
  let era := (if 0 ≤ y' then y' else y' - 399) / 400
  let yoe := y' - era * 400
  let mp := if 2 < m then m - 3 else m + 9
  let doy := (153 * mp + 2) / 5 + d - 1
  let doe := yoe * 365 + yoe / 4 - yoe / 100 + doy
  era * 146097 + doe - 719468

/-- A mission start date, the parsed form of the yyyy-mm-dd string. -/
structure MissionDate where
  year : Int
  month : Int
  day : Int
deriving DecidableEq, Repr

/-- Embedding of computeTime_UTC (lines 739-761): seconds from the UTC
reference epoch 2000-01-01T00:00:00, computed as the input seconds plus the
total seconds of the difference between the mission start date and the
reference. -/
def computeTime_UTC (start : MissionDate) (t : ℚ) : ℚ :=
  t + ((daysFromCivil start.year start.month start.day - daysFromCivil 2000 1 1) * 86400 : ℤ)

/-- Embedding of computeTime_TAI (lines 763-785): identical except that the
reference epoch is 2000-01-01T00:00:32, so the date difference loses the 32
seconds of the reference time of day. -/
def computeTime_TAI (start : MissionDate) (t : ℚ) : ℚ :=
  t + (((daysFromCivil start.year start.month start.day - daysFromCivil 2000 1 1) * 86400 - 32 : ℤ))

/-! ## NetCDF vector filling (fill_vector_param, proc_real_pixc.py lines 28-49) -/

/-- What fill_vector_param did to the output file: nothing (variable was None),
or wrote the named variable with the given values. -/
inductive FillAction (α : Type) where
  | skipped
  | wrote (name : String) (values : List α)
deriving DecidableEq, Repr

/-- The exit message of fill_vector_param on a size mismatch, naming the
variable. -/
def fillErrMsg (variable_name : String) : String :=
  "[proc_realPixC/fill_vector_param] ERROR = There is a problem with the size of "
    ++ variable_name

/-- Embedding of fill_vector_param (lines 28-49): a None variable is skipped
silently; otherwise the value is written when its length equals ref_size and
the run aborts with a message naming the variable when it does not. -/
def fill_vector_param {α : Type} (var : Option (List α)) (variable_name : String)
    (ref_size : Nat) : Except String (FillAction α) :=
  match var with
  | none => .ok .skipped
  | some v =>
    if v.length ≠ ref_size then
      .error (fillErrMsg variable_name)
    else
      .ok (.wrote variable_name v)

example : l2_hr_pixc_init ⟨[0, 1], [5, 6], [4, 4], [100, 200]⟩ =
    .ok ⟨[0, 1], [5, 6], [4, 4], 2, [0, 1], [100, 200], [100, 200], 2⟩ := rfl
example : l2_hr_pixc_init ⟨[0, 3], [5, 6], [4, 4], [100, 200]⟩ = .error (.azimuthOutOfBounds 3 2) :=
  rfl
example : l2_hr_pixc_init ⟨[], [], [], [100]⟩ = .error .emptyMax := rfl
example : fill_vector_param (some [(1 : Int), 2]) "height" 2 = .ok (.wrote "height" [1, 2]) := rfl
example : fill_vector_param (some [(1 : Int)]) "height" 2 = .error (fillErrMsg "height") := rfl
example : fill_vector_param (Option.none : Option (List Int)) "height" 7 = .ok .skipped := rfl

/-- Concrete input used by the C2 counterexample: an empty pixel cloud over a
one-point nadir track. -/
def emptyCloudInput : PixcInput := ⟨[], [], [], [0]⟩

/-- Concrete input used by the C8 witness. -/
def smallCloudInput : PixcInput := ⟨[0, 1, 1], [3, 4, 5], [4, 4, 4], [100, 200]⟩

/-- The constructor state produced from smallCloudInput. -/
def smallCloudState : PixcState :=
  ⟨[0, 1, 1], [3, 4, 5], [4, 4, 4], 3, [0, 1, 1], [100, 200], [100, 200, 200], 2⟩

/-! ## Helper lemmas -/

theorem le_foldl_max (l : List Nat) (a : Nat) : a ≤ l.foldl max a := by
  induction l generalizing a with
  | nil => simp
  | cons b t ih =>
    simp only [List.foldl_cons]
    exact le_trans (le_max_left a b) (ih (max a b))

theorem mem_le_foldl_max (l : List Nat) : ∀ a x : Nat, x ∈ l → x ≤ l.foldl max a := by
  induction l with
  | nil => intro a x hx; cases hx
  | cons b t ih =>
    intro a x hx
    simp only [List.foldl_cons]
    rcases List.mem_cons.mp hx with rfl | hx'
    · exact le_trans (le_max_right a x) (le_foldl_max t (max a x))
    · exact ih (max a b) x hx'

theorem npMax_spec (l : List Nat) (m : Nat) (h : npMax l = .ok m) : ∀ x ∈ l, x ≤ m := by
  cases l with
  | nil => simp [npMax] at h
  | cons a t =>
    simp only [npMax, Except.ok.injEq] at h
    subst h
    intro x hx
    rcases List.mem_cons.mp hx with h1 | hx'
    · rw [h1]; exact le_foldl_max t a
    · exact mem_le_foldl_max t a x hx'

theorem pyGet_ok : ∀ (l : List Int) (i : Nat), i < l.length → pyGet l i = .ok (l.getD i 0) := by
  intro l
  induction l with
  | nil => intro i h; simp at h
  | cons a t ih =>
    intro i h
    cases i with
    | zero => simp [pyGet]
    | succ j =>
      simp only [List.length_cons, Nat.succ_lt_succ_iff] at h
      simpa [pyGet, List.getD] using ih j h

theorem buildIlluminationTime_ok (time : List Int) :
    ∀ idxs : List Nat, (∀ a ∈ idxs, a < time.length) →
      buildIlluminationTime time idxs = .ok (idxs.map (fun a => time.getD a 0)) := by
  intro idxs
  induction idxs with
  | nil => intro _; rfl
  | cons a t ih =>
    intro h
    have ha : a < time.length := h a (by simp)
    have ht : ∀ x ∈ t, x < time.length := fun x hx => h x (by simp [hx])
    simp only [buildIlluminationTime, pyGet_ok time a ha, ih ht, List.map_cons]

theorem getD_map_getD (time : List Int) (l : List Nat) :
    ∀ i, i < l.length → (l.map (fun a => time.getD a 0)).getD i 0 = time.getD (l.getD i 0) 0 := by
  induction l with
  | nil => intro i h; simp at h
  | cons a t ih =>
    intro i h
    cases i with
    | zero => rfl
    | succ j =>
      simp only [List.map_cons, List.getD_cons_succ]
      exact ih j (by simpa using h)

theorem splitDot_cons_dot (rest : List Char) : splitDot ('.' :: rest) = [] :: splitDot rest := by
  simp [splitDot]

theorem splitDot_cons_ne (c : Char) (rest : List Char) (h : ¬c = '.') :
    splitDot (c :: rest) = (c :: (splitDot rest).headD []) :: (splitDot rest).tail := by
  simp [splitDot, h]

theorem splitDot_ne_nil (l : List Char) : splitDot l ≠ [] := by
  cases l with
  | nil => simp [splitDot]
  | cons c rest =>
    by_cases h : c = '.'
    · subst h; rw [splitDot_cons_dot]; simp
    · rw [splitDot_cons_ne c rest h]; simp

theorem two_le_length_splitDot_append (l r : List Char) :
    2 ≤ (splitDot (l ++ '.' :: r)).length := by
  induction l with
  | nil =>
    rw [List.nil_append, splitDot_cons_dot, List.length_cons]
    have := List.length_pos.mpr (splitDot_ne_nil r)
    omega
  | cons c t ih =>
    rw [List.cons_append]
    by_cases h : c = '.'
    · subst h
      rw [splitDot_cons_dot, List.length_cons]
      omega
    · rw [splitDot_cons_ne c _ h, List.length_cons, List.length_tail]
      omega

theorem getLastD_splitDot_append (l r : List Char) :
    (splitDot (l ++ '.' :: r)).getLastD [] = (splitDot r).getLastD [] := by
  induction l with
  | nil =>
    rw [List.nil_append, splitDot_cons_dot, List.getLastD_cons]
  | cons c t ih =>
    rw [List.cons_append]
    by_cases h : c = '.'
    · subst h
      rw [splitDot_cons_dot, List.getLastD_cons, ih]
    · rw [splitDot_cons_ne c _ h]
      obtain ⟨a, b, u, hs⟩ : ∃ a b u, splitDot (t ++ '.' :: r) = a :: b :: u := by
        have h2 := two_le_length_splitDot_append t r
        match hsd : splitDot (t ++ '.' :: r) with
        | [] => rw [hsd] at h2; simp at h2
        | [x] => rw [hsd] at h2; simp at h2
        | a :: b :: u => exact ⟨a, b, u, rfl⟩
      rw [hs] at ih ⊢
      simp only [List.headD_cons, List.tail_cons, List.getLastD_cons] at ih ⊢
      exact ih

theorem lastSeg_of_dot_suffix (f : String) (suf : List Char)
    (h : ('.' :: suf).isSuffixOf f.toList = true) :
    (splitDot f.toList).getLastD [] = (splitDot suf).getLastD [] := by
  obtain ⟨t, ht⟩ := List.isSuffixOf_iff_suffix.mp h
  rw [← ht]
  exact getLastD_splitDot_append t suf

theorem getLastD_map_mk (s : List (List Char)) :
    ∀ d, (s.map String.mk).getLastD (String.mk d) = String.mk (s.getLastD d) := by
  induction s with
  | nil => intro d; rfl
  | cons a t ih =>
    intro d
    simp only [List.map_cons, List.getLastD_cons]
    exact ih a

theorem pySplitDot_getLastD (f : String) :
    (pySplitDot f).getLastD "" = String.mk ((splitDot f.toList).getLastD []) :=
  getLastD_map_mk (splitDot f.toList) []

theorem lastSeg_shp (f : String) (h : endsWithSpec f ".shp" = true) :
    (pySplitDot f).getLastD "" = "shp" := by
  have h' : ('.' :: "shp".toList).isSuffixOf f.toList = true := h
  rw [pySplitDot_getLastD, lastSeg_of_dot_suffix f "shp".toList h']
  rfl

theorem lastSeg_sqlite (f : String) (h : endsWithSpec f ".sqlite" = true) :
    (pySplitDot f).getLastD "" = "sqlite" := by
  have h' : ('.' :: "sqlite".toList).isSuffixOf f.toList = true := h
  rw [pySplitDot_getLastD, lastSeg_of_dot_suffix f "sqlite".toList h']
  rfl

/-! ## Claim theorems -/

/-- Claim C1: with the prior lake database option unset (None or the empty
string), PGELakeTile._read_lake_db builds the empty lake-database object, the
run continues with a warning rather than an error (the embedded function is
total, and the branch taken logs a warning), and the empty index links no prior
lake to any observed feature, so every feature is subsequently unassigned. -/
theorem claim_C1 (cfg : Option String) (isdir : String → Bool)
    (h : cfg = none ∨ cfg = some "") :
    read_lake_db cfg isdir = ⟨.emptyDb, true⟩ ∧ ∀ k, emptyLakeDbLink k = [] := by
  refine ⟨?_, fun _ => rfl⟩
  rcases h with rfl | rfl <;> rfl

theorem claim_C1_witness : read_lake_db none (fun _ => false) = ⟨.emptyDb, true⟩ :=
  (claim_C1 none (fun _ => false) (Or.inl rfl)).1

/-- Claim C2 counterexample: the empty pixel cloud has every azimuth index
within bounds (vacuously), yet the l2_hr_pixc constructor does not complete:
np.max on a zero-size array raises before the bounds check is reached.  This
refutes the claim that the constructor aborts only when some azimuth index is
out of bounds. -/
theorem claim_C2_counterexample :
    (∀ a ∈ emptyCloudInput.azimuth_index, a < emptyCloudInput.nadir_time.length) ∧
    l2_hr_pixc_init emptyCloudInput = .error .emptyMax :=
  ⟨by simp [emptyCloudInput], rfl⟩

/-- Claim C2 (amended to nonempty azimuth index arrays, the case where np.max
is defined): the constructor aborts if and only if the maximum azimuth index
reaches the declared number of nadir points, the abort value surfaces that
offending maximal index, and when the maximum is within bounds the constructor
completes without error. -/
theorem claim_C2 (inp : PixcInput) (m : Nat) (hm : npMax inp.azimuth_index = .ok m) :
    (inp.nadir_time.length ≤ m →
      l2_hr_pixc_init inp = .error (.azimuthOutOfBounds m inp.nadir_time.length)) ∧
    (m < inp.nadir_time.length →
      l2_hr_pixc_init inp = .ok
        { azimuth_index := inp.azimuth_index
          range_index := inp.range_index
          classification := inp.classification
          nb_water_pix := inp.azimuth_index.length
          sensor_s := inp.azimuth_index
          nadir_time := inp.nadir_time
          illumination_time := inp.azimuth_index.map (fun a => inp.nadir_time.getD a 0)
          nb_nadir_pix := inp.nadir_time.length }) := by
  constructor
  · intro hle
    simp [l2_hr_pixc_init, hm, hle]
  · intro hlt
    have hb : ∀ a ∈ inp.azimuth_index, a < inp.nadir_time.length := fun a ha =>
      lt_of_le_of_lt (npMax_spec _ _ hm a ha) hlt
    simp [l2_hr_pixc_init, hm, Nat.not_le.mpr hlt, buildIlluminationTime_ok _ _ hb]

theorem claim_C2_witness :
    l2_hr_pixc_init ⟨[0, 5], [1, 2], [4, 4], [100, 200]⟩ =
      .error (.azimuthOutOfBounds 5 2) :=
  (claim_C2 ⟨[0, 5], [1, 2], [4, 4], [100, 200]⟩ 5 rfl).1 (by decide)

/-- Claim C3: when the configuration check of the PGELakeTile constructor
fails (unknown or ill-typed option value), the run stops with that error during
the constructor, before any feature-processing step: the executed trace
contains no input-data read, no lake-database load and no SAS processing or
output-writing step. -/
theorem claim_C3 (e : ConfigError) :
    (pgeMain (.error e)).2 = some e ∧
    ((pgeMain (.error e)).1.all fun s => !featureProcessingStep s) = true :=
  ⟨rfl, rfl⟩

/-- Claim C4: every run of _write_output_data emits exactly the three feature
shapefile collections, in the fixed order obs-oriented, PLD-oriented,
unassigned, and these are followed by the PIXCVec side-table file and then the
tile-edge pixel file, whatever the shapefile-production flag and pixel counts. -/
theorem claim_C4 (flag_prod_shp : Bool) (nb_water_pix nb_edge_pix : Nat) :
    ((write_output_data flag_prod_shp nb_water_pix nb_edge_pix).filter
        isFeatureCollectionEvent =
      [WriteEvent.obsShp, WriteEvent.priorShp, WriteEvent.unknownShp]) ∧
    ((write_output_data flag_prod_shp nb_water_pix nb_edge_pix).filter claimC4Event =
      [WriteEvent.obsShp, WriteEvent.priorShp, WriteEvent.unknownShp, WriteEvent.pixcvecNc,
       WriteEvent.edgeNc]) := by
  cases flag_prod_shp <;> by_cases h1 : nb_water_pix = 0 <;> by_cases h2 : nb_edge_pix = 0 <;>
    simp [write_output_data, h1, h2, claimC4Event, isFeatureCollectionEvent]

/-- Claim C5 counterexample: the path shp is not ending in .shp, not ending in
.sqlite and not a directory, so the claim requires the unknown-format downgrade
to an empty database; the source instead compares the last dot-separated piece
of the path and builds a shapefile-backed index.  read_lake_db_specModel states
the dispatch exactly as the claim words it, and the two disagree here. -/
theorem claim_C5_counterexample :
    read_lake_db (some "shp") (fun _ => false) ≠
      read_lake_db_specModel (some "shp") (fun _ => false) ∧
    read_lake_db (some "shp") (fun _ => false) = ⟨.shpDb "shp", false⟩ ∧
    read_lake_db_specModel (some "shp") (fun _ => false) = ⟨.emptyDb, true⟩ :=
  ⟨by decide, by decide, by decide⟩

/-- Claim C5 (amended): the dispatch key is the last dot-separated component of
the configured path.  A path ending in .shp builds the shapefile-backed index
and a path ending in .sqlite the single-database index, as the claim says; when
the component is neither shp nor sqlite, an existing directory builds the
directory-of-databases index, and any other path is downgraded to the empty
database with a warning rather than an error. -/
theorem claim_C5 (f : String) (isdir : String → Bool) (hf : f ≠ "") :
    (endsWithSpec f ".shp" = true → read_lake_db (some f) isdir = ⟨.shpDb f, false⟩) ∧
    (endsWithSpec f ".sqlite" = true → read_lake_db (some f) isdir = ⟨.sqliteDb f, false⟩) ∧
    ((pySplitDot f).getLastD "" ≠ "shp" → (pySplitDot f).getLastD "" ≠ "sqlite" →
      isdir f = true → read_lake_db (some f) isdir = ⟨.dirDb f, false⟩) ∧
    ((pySplitDot f).getLastD "" ≠ "shp" → (pySplitDot f).getLastD "" ≠ "sqlite" →
      isdir f = false → read_lake_db (some f) isdir = ⟨.emptyDb, true⟩) := by
  have hd : read_lake_db (some f) isdir =
      if (pySplitDot f).getLastD "" = "shp" then ⟨.shpDb f, false⟩
      else if (pySplitDot f).getLastD "" = "sqlite" then ⟨.sqliteDb f, false⟩
      else if isdir f then ⟨.dirDb f, false⟩
      else ⟨.emptyDb, true⟩ := by
    simp only [read_lake_db, if_neg hf]
  refine ⟨?_, ?_, ?_, ?_⟩
  · intro h
    rw [hd, if_pos (lastSeg_shp f h)]
  · intro h
    rw [hd, lastSeg_sqlite f h, if_neg (by decide), if_pos rfl]
  · intro h1 h2 hisdir
    rw [hd, if_neg h1, if_neg h2, if_pos hisdir]
  · intro h1 h2 hisdir
    rw [hd, if_neg h1, if_neg h2, if_neg (by simp [hisdir])]

theorem claim_C5_witness :
    read_lake_db (some "priorlakes.sqlite") (fun _ => false) =
      ⟨.sqliteDb "priorlakes.sqlite", false⟩ :=
  (claim_C5 "priorlakes.sqlite" (fun _ => false) (by decide)).2.1 (by decide)

/-- Claim C6: the hull-method option is checked as a float restricted to
exactly the selector values 0, 1.0, 1.1, 1.2 and 2, with default 2, and two
separate integer ceilings are checked for it: NB_PIX_MAX_DELAUNEY with default
100000 and NB_PIX_MAX_CONTOUR with default 8000. -/
theorem claim_C6 :
    findCheck "HULL_METHOD" = some ⟨"CONFIG_PARAMS", "HULL_METHOD", .pyfloat, some (.vnum 2),
      some [.vnum 0, .vnum 1.0, .vnum 1.1, .vnum 1.2, .vnum 2]⟩ ∧
    findCheck "NB_PIX_MAX_DELAUNEY" = some ⟨"CONFIG_PARAMS", "NB_PIX_MAX_DELAUNEY", .pyint,
      some (.vnum 100000), none⟩ ∧
    findCheck "NB_PIX_MAX_CONTOUR" = some ⟨"CONFIG_PARAMS", "NB_PIX_MAX_CONTOUR", .pyint,
      some (.vnum 8000), none⟩ ∧
    "NB_PIX_MAX_DELAUNEY" ≠ "NB_PIX_MAX_CONTOUR" :=
  ⟨rfl, rfl, rfl, by decide⟩

/-- Claim C7: the water classification codes and the dark-water classification
codes are two distinct, independently checked string options, FLAG_WATER with
default 3;4 and FLAG_DARK with default 23;24. -/
theorem claim_C7 :
    findCheck "FLAG_WATER" = some ⟨"CONFIG_PARAMS", "FLAG_WATER", .pystr,
      some (.vstr "3;4"), none⟩ ∧
    findCheck "FLAG_DARK" = some ⟨"CONFIG_PARAMS", "FLAG_DARK", .pystr,
      some (.vstr "23;24"), none⟩ ∧
    "FLAG_WATER" ≠ "FLAG_DARK" :=
  ⟨rfl, rfl, by decide⟩

/-- Claim C8: when the constructor completes (given all azimuth indices within
the nadir point count), illumination_time has exactly nb_water_pix elements,
nb_water_pix is the azimuth array size, and every entry i of illumination_time
is the nadir time tag at the azimuth index of pixel i. -/
theorem claim_C8 (inp : PixcInput) (st : PixcState)
    (hpre : ∀ a ∈ inp.azimuth_index, a < inp.nadir_time.length)
    (hok : l2_hr_pixc_init inp = .ok st) :
    st.illumination_time.length = st.nb_water_pix ∧
    st.nb_water_pix = inp.azimuth_index.length ∧
    ∀ i, i < st.nb_water_pix →
      st.illumination_time.getD i 0 = inp.nadir_time.getD (inp.azimuth_index.getD i 0) 0 := by
  cases hnp : npMax inp.azimuth_index with
  | error e => simp [l2_hr_pixc_init, hnp] at hok
  | ok m =>
    by_cases hle : inp.nadir_time.length ≤ m
    · simp [l2_hr_pixc_init, hnp, hle] at hok
    · simp [l2_hr_pixc_init, hnp, hle, buildIlluminationTime_ok _ _ hpre] at hok
      subst hok
      refine ⟨by simp, rfl, ?_⟩
      intro i hi
      simpa using getD_map_getD inp.nadir_time inp.azimuth_index i hi

theorem claim_C8_witness :
    smallCloudState.illumination_time.length = smallCloudState.nb_water_pix ∧
    smallCloudState.nb_water_pix = smallCloudInput.azimuth_index.length ∧
    smallCloudState.illumination_time.getD 2 0 =
      smallCloudInput.nadir_time.getD (smallCloudInput.azimuth_index.getD 2 0) 0 := by
  have h := claim_C8 smallCloudInput smallCloudState (by decide) rfl
  exact ⟨h.1, h.2.1, h.2.2 2 (by decide)⟩

/-- Claim C9: for every mission start date and every seconds-from-start value,
computeTime_UTC exceeds computeTime_TAI by exactly 32 seconds (the two fixed
reference epochs 2000-01-01T00:00:00 and 2000-01-01T00:00:32), and both
conversions are affine in the input with unit slope. -/
theorem claim_C9 (start : MissionDate) (t : ℚ) :
    computeTime_UTC start t - computeTime_TAI start t = 32 ∧
    computeTime_UTC start t - computeTime_UTC start 0 = t ∧
    computeTime_TAI start t - computeTime_TAI start 0 = t := by
  refine ⟨?_, ?_, ?_⟩ <;>
    · simp only [computeTime_UTC, computeTime_TAI]
      push_cast
      ring

/-- Claim C10: fill_vector_param skips silently a None variable; a non-None
value is written exactly when its length equals ref_size; a length mismatch
aborts with a message naming the variable; and whatever is written has exactly
the declared number of elements, under the declared name. -/
theorem claim_C10 (α : Type) (var : Option (List α)) (vn : String) (ref : Nat) :
    (var = none → fill_vector_param var vn ref = .ok .skipped) ∧
    (∀ v, var = some v → v.length = ref → fill_vector_param var vn ref = .ok (.wrote vn v)) ∧
    (∀ v, var = some v → v.length ≠ ref → fill_vector_param var vn ref = .error (fillErrMsg vn)) ∧
    (∀ v s vals, var = some v → fill_vector_param var vn ref = .ok (.wrote s vals) →
      vals.length = ref ∧ s = vn ∧ vals = v) := by
  refine ⟨?_, ?_, ?_, ?_⟩
  · intro h; subst h; rfl
  · intro v hv hl; subst hv; simp [fill_vector_param, hl]
  · intro v hv hl; subst hv; simp [fill_vector_param, hl]
  · intro v s vals hv hw
    subst hv
    by_cases hl : v.length = ref
    · simp only [fill_vector_param, hl, ne_eq, not_true_eq_false, if_false,
        Except.ok.injEq] at hw
      obtain ⟨hs, hvals⟩ := FillAction.wrote.inj hw
      exact ⟨by rw [← hvals]; exact hl, hs.symm, hvals.symm⟩
    · simp [fill_vector_param, hl] at hw

theorem claim_C10_witness :
    fill_vector_param (some [(1 : Int), 2]) "height" 2 = .ok (.wrote "height" [1, 2]) ∧
    fill_vector_param (some [(1 : Int)]) "height" 2 = .error (fillErrMsg "height") := by
  have h := claim_C10 Int (some [1, 2]) "height" 2
  have h' := claim_C10 Int (some [1]) "height" 2
  exact ⟨h.2.1 [1, 2] rfl rfl, h'.2.2.1 [1] rfl (by decide)⟩
